import Mathlib

/-!
Verification of the mortgage simulation core (`mortgage.js`).

The JavaScript source is embedded shallowly over the exact reals: every
numeric variable of the program becomes a real number, `Math.log` becomes
`Real.log` and `Math.pow` with a real exponent becomes `Real.rpow`.  The
month-by-month `while` loop is modelled as a fuel-indexed recursion whose
guard is the source's own condition `balance > 0.01 && months < MAX_MONTHS`;
since `months` starts at 0 and increases by exactly one per iteration, a
fuel of `MAX_MONTHS` makes the fuel bound coincide with the source's
`months < MAX_MONTHS` bound.

Note on `Real.log` versus `Math.log`: for a positive argument the two
agree; for argument 0 JavaScript yields `-Infinity` and for a negative
argument `NaN`, while Mathlib's `Real.log` yields the junk values
`Real.log 0 = 0` and `Real.log x = Real.log |x|`.  Theorems about the
`quota` strategy therefore carry hypotheses keeping every evaluated
logarithm argument positive, which is exactly the regime in which this
embedding is faithful to the program.
-/

namespace Mortgage

/-- Input record destructured by `simulate` (field names follow the source). -/
structure SimulationParameters where
  principal : ℝ
  annualRate : ℝ
  monthlyPayment : ℝ
  amortizationAmount : ℝ
  strategy : String

/-- One element of the `schedule` array pushed per simulated month. -/
structure ScheduleEntry where
  month : ℕ
  balance : ℝ
  interest : ℝ
  payment : ℝ
  accumulatedInterest : ℝ

/-- The mutable local state of the `simulate` loop. -/
structure SimState where
  balance : ℝ
  currentPayment : ℝ
  totalInterest : ℝ
  totalPaid : ℝ
  months : ℕ
  schedule : List ScheduleEntry

/-- The record returned by `simulate`. -/
structure SimulationResult where
  schedule : List ScheduleEntry
  totalInterest : ℝ
  totalYears : ℝ
  totalPaid : ℝ
  finalMonth : ℕ

/-- `getMonthlyRate`: `annualRate / 12 / 100`. -/
noncomputable def getMonthlyRate (annualRate : ℝ) : ℝ :=
  annualRate / 12 / 100

/-- `calculateMonthlyPayment`: the annuity formula, with the zero-rate
straight-line branch.  `Math.pow` on a real exponent is `Real.rpow`. -/
noncomputable def calculateMonthlyPayment (principal monthlyRate totalMonths : ℝ) : ℝ :=
  if monthlyRate = 0 then principal / totalMonths
  else principal * (monthlyRate * (1 + monthlyRate) ^ totalMonths) /
    ((1 + monthlyRate) ^ totalMonths - 1)

/-- `calculateRemainingMonths`: `n = -log(1 - (r * P) / M) / log(1 + r)`,
with the zero-rate branch `principal / payment`. -/
noncomputable def calculateRemainingMonths (principal monthlyRate payment : ℝ) : ℝ :=
  if monthlyRate = 0 then principal / payment
  else -Real.log (1 - (monthlyRate * principal) / payment) / Real.log (1 + monthlyRate)

/-- Safety break of the `while` loop: `MAX_MONTHS = 1200`. -/
def MAX_MONTHS : ℕ := 1200

/-- One iteration of the `while` body of `simulate`: interest accrual, the
capped regular payment, accumulator updates, the annual extra-payment block
with its `quota` recompute, and the `schedule.push`. -/
noncomputable def simStep (rate amortizationAmount : ℝ) (strategy : String)
    (s : SimState) : SimState :=
  let months := s.months + 1
  let interest := s.balance * rate
  let payment := if s.currentPayment > s.balance + interest
    then s.balance + interest else s.currentPayment
  let principalPortion := payment - interest
  let totalInterest := s.totalInterest + interest
  let totalPaid := s.totalPaid + payment
  let balance := s.balance - principalPortion
  if months % 12 = 0 ∧ balance > 0 ∧ amortizationAmount > 0 then
    let extraPayment := if amortizationAmount > balance then balance else amortizationAmount
    let balance2 := balance - extraPayment
    let totalPaid2 := totalPaid + extraPayment
    let currentPayment2 :=
      if strategy = "quota" then
        let remainingN := calculateRemainingMonths (balance2 + extraPayment) rate s.currentPayment
        if remainingN > 0 then calculateMonthlyPayment balance2 rate remainingN
        else s.currentPayment
      else s.currentPayment
    { balance := balance2, currentPayment := currentPayment2,
      totalInterest := totalInterest, totalPaid := totalPaid2, months := months,
      schedule := s.schedule ++
        [⟨months, max 0 balance2, interest, payment + extraPayment, totalInterest⟩] }
  else
    { balance := balance, currentPayment := s.currentPayment,
      totalInterest := totalInterest, totalPaid := totalPaid, months := months,
      schedule := s.schedule ++
        [⟨months, max 0 balance, interest, payment, totalInterest⟩] }

/-- The `while (balance > 0.01 && months < MAX_MONTHS)` loop, as a
fuel-indexed recursion; called with fuel `MAX_MONTHS`, the fuel runs out
exactly when the source's `months < MAX_MONTHS` test fails. -/
noncomputable def simLoop (rate amortizationAmount : ℝ) (strategy : String) :
    ℕ → SimState → SimState
  | 0, s => s
  | fuel + 1, s =>
    if s.balance > 0.01 ∧ s.months < MAX_MONTHS then
      simLoop rate amortizationAmount strategy fuel (simStep rate amortizationAmount strategy s)
    else s

/-- Initial loop state: `balance = principal`, `currentPayment = monthlyPayment`,
zero accumulators, empty schedule. -/
def initState (params : SimulationParameters) : SimState :=
  ⟨params.principal, params.monthlyPayment, 0, 0, 0, []⟩

/-- The final loop state of a `simulate` run. -/
noncomputable def finalState (params : SimulationParameters) : SimState :=
  simLoop (getMonthlyRate params.annualRate) params.amortizationAmount params.strategy
    MAX_MONTHS (initState params)

/-- `simulate`: run the loop and package the result record. -/
noncomputable def simulate (params : SimulationParameters) : SimulationResult :=
  let s := finalState params
  ⟨s.schedule, s.totalInterest, (s.months : ℝ) / 12, s.totalPaid, s.months⟩

/-- The `savings` record of `compare`. -/
structure ComparisonSavings where
  interest : ℝ
  years : ℝ
  total : ℝ

/-- The record returned by `compare`. -/
structure ComparisonResult where
  base : SimulationResult
  sim : SimulationResult
  savings : ComparisonSavings

/-- `compare`: run `simulate` on both parameter sets and take base-minus-scenario deltas. -/
noncomputable def compare (baseParams simParams : SimulationParameters) : ComparisonResult :=
  let base := simulate baseParams
  let sim := simulate simParams
  ⟨base, sim,
    ⟨base.totalInterest - sim.totalInterest,
     base.totalYears - sim.totalYears,
     base.totalPaid - sim.totalPaid⟩⟩

/-! ### Basic loop lemmas -/

lemma simLoop_zero (rate amortizationAmount : ℝ) (strategy : String) (s : SimState) :
    simLoop rate amortizationAmount strategy 0 s = s := rfl

lemma simLoop_succ (rate amortizationAmount : ℝ) (strategy : String) (fuel : ℕ) (s : SimState) :
    simLoop rate amortizationAmount strategy (fuel + 1) s =
      if s.balance > 0.01 ∧ s.months < MAX_MONTHS then
        simLoop rate amortizationAmount strategy fuel (simStep rate amortizationAmount strategy s)
      else s := rfl

lemma simStep_months (rate amortizationAmount : ℝ) (strategy : String) (s : SimState) :
    (simStep rate amortizationAmount strategy s).months = s.months + 1 := by
  simp only [simStep]
  split_ifs <;> simp

lemma simStep_schedule_length (rate amortizationAmount : ℝ) (strategy : String) (s : SimState) :
    (simStep rate amortizationAmount strategy s).schedule.length = s.schedule.length + 1 := by
  simp only [simStep]
  split_ifs <;> simp

/-- Invariant combinator: a predicate preserved by the loop body is preserved
by the whole loop. -/
lemma simLoop_inv (rate amortizationAmount : ℝ) (strategy : String) (P : SimState → Prop)
    (hstep : ∀ s, s.balance > 0.01 → s.months < MAX_MONTHS → P s →
      P (simStep rate amortizationAmount strategy s)) :
    ∀ fuel s, P s → P (simLoop rate amortizationAmount strategy fuel s) := by
  intro fuel
  induction fuel with
  | zero => intro s h; exact h
  | succ f ih =>
    intro s h
    rw [simLoop_succ]
    by_cases hg : s.balance > 0.01 ∧ s.months < MAX_MONTHS
    · rw [if_pos hg]
      exact ih _ (hstep s hg.1 hg.2 h)
    · rw [if_neg hg]
      exact h

/-- When the fuel covers the remaining month budget, the loop can only stop
because its own guard failed. -/
lemma simLoop_exitCond (rate amortizationAmount : ℝ) (strategy : String) :
    ∀ fuel s, MAX_MONTHS ≤ s.months + fuel →
      ¬((simLoop rate amortizationAmount strategy fuel s).balance > 0.01 ∧
        (simLoop rate amortizationAmount strategy fuel s).months < MAX_MONTHS) := by
  intro fuel
  induction fuel with
  | zero =>
    intro s h
    rw [simLoop_zero]
    intro hc
    omega
  | succ f ih =>
    intro s h
    rw [simLoop_succ]
    by_cases hg : s.balance > 0.01 ∧ s.months < MAX_MONTHS
    · rw [if_pos hg]
      apply ih
      rw [simStep_months]
      omega
    · rw [if_neg hg]
      exact hg

lemma simLoop_months_le (rate amortizationAmount : ℝ) (strategy : String)
    (fuel : ℕ) (s : SimState) (h : s.months ≤ MAX_MONTHS) :
    (simLoop rate amortizationAmount strategy fuel s).months ≤ MAX_MONTHS := by
  refine simLoop_inv rate amortizationAmount strategy (fun t => t.months ≤ MAX_MONTHS)
    ?_ fuel s h
  intro t _ ht _
  rw [simStep_months]
  omega

lemma simLoop_length_eq_months (rate amortizationAmount : ℝ) (strategy : String)
    (fuel : ℕ) (s : SimState) (h : s.schedule.length = s.months) :
    (simLoop rate amortizationAmount strategy fuel s).schedule.length =
      (simLoop rate amortizationAmount strategy fuel s).months := by
  refine simLoop_inv rate amortizationAmount strategy (fun t => t.schedule.length = t.months)
    ?_ fuel s h
  intro t _ _ ht
  rw [simStep_months, simStep_schedule_length, ht]

/-- CLAIM C1.  For every input, `simulate` terminates and returns normally:
the schedule has length `totalMonths`, `totalMonths ≤ 1200`, and the loop
stops either because the balance fell to the 0.01 threshold or because the
1200-month safety ceiling was reached (in which case `totalMonths = 1200`
and the partial schedule is returned, not an error). -/
theorem claimC1_termination (params : SimulationParameters) :
    (simulate params).schedule.length = (simulate params).finalMonth ∧
    (simulate params).finalMonth ≤ MAX_MONTHS ∧
    ((finalState params).balance ≤ 0.01 ∨ (simulate params).finalMonth = MAX_MONTHS) := by
  have hlen : (simulate params).schedule.length = (simulate params).finalMonth :=
    simLoop_length_eq_months _ _ _ MAX_MONTHS (initState params) rfl
  have hle : (simulate params).finalMonth ≤ MAX_MONTHS :=
    simLoop_months_le _ _ _ MAX_MONTHS (initState params) (by norm_num [initState, MAX_MONTHS])
  have hexit := simLoop_exitCond (getMonthlyRate params.annualRate) params.amortizationAmount
    params.strategy MAX_MONTHS (initState params) (by norm_num [initState])
  refine ⟨hlen, hle, ?_⟩
  by_cases hb : (finalState params).balance ≤ 0.01
  · exact Or.inl hb
  · right
    have hfm : (simulate params).finalMonth = (finalState params).months := rfl
    rw [hfm]
    push_neg at hb
    rcases Nat.lt_or_ge (finalState params).months MAX_MONTHS with hlt | hge
    · exact absurd ⟨hb, hlt⟩ hexit
    · have : (finalState params).months ≤ MAX_MONTHS := hfm ▸ hle
      omega

/-- CLAIM C2.  Cash conservation: at loop exit,
`totalPaid = totalInterest + (principal - finalBalance)` exactly, where
`finalBalance` is the internal balance of the final loop state. -/
theorem claimC2_cash_conservation (params : SimulationParameters)
    (hP : 0 < params.principal) (hp : 0 < params.monthlyPayment)
    (hr : 0 ≤ params.annualRate) (ha : 0 ≤ params.amortizationAmount) :
    (simulate params).totalPaid =
      (simulate params).totalInterest + (params.principal - (finalState params).balance) := by
  have key : ∀ fuel s, s.totalPaid = s.totalInterest + (params.principal - s.balance) →
      (simLoop (getMonthlyRate params.annualRate) params.amortizationAmount params.strategy
        fuel s).totalPaid =
      (simLoop (getMonthlyRate params.annualRate) params.amortizationAmount params.strategy
        fuel s).totalInterest +
        (params.principal -
          (simLoop (getMonthlyRate params.annualRate) params.amortizationAmount params.strategy
            fuel s).balance) := by
    intro fuel s h
    refine simLoop_inv _ _ _
      (fun t => t.totalPaid = t.totalInterest + (params.principal - t.balance)) ?_ fuel s h
    intro t _ _ ht
    simp only [simStep]
    split_ifs <;> simp <;> linarith
  have h0 : (initState params).totalPaid =
      (initState params).totalInterest + (params.principal - (initState params).balance) := by
    simp [initState]
  exact key MAX_MONTHS (initState params) h0

/-- Witness for C2 at concrete input ⟨100, 0, 10, 0, term⟩. -/
theorem claimC2_witness :
    (0:ℝ) < 100 ∧ (0:ℝ) < 10 ∧ (0:ℝ) ≤ 0 ∧
    (simulate ⟨100, 0, 10, 0, "term"⟩).totalPaid =
      (simulate ⟨100, 0, 10, 0, "term"⟩).totalInterest +
        (100 - (finalState ⟨100, 0, 10, 0, "term"⟩).balance) :=
  ⟨by norm_num, by norm_num, le_refl 0,
    claimC2_cash_conservation ⟨100, 0, 10, 0, "term"⟩ (by norm_num) (by norm_num)
      (by norm_num) (by norm_num)⟩

/-! ### Nonpositive amortization disables the extra-payment block -/

lemma amort_cond_false {a : ℝ} (ha : a ≤ 0) (m : ℕ) (b : ℝ) :
    ((m % 12 = 0 ∧ b > 0 ∧ a > 0) = False) := by
  simp only [eq_iff_iff, iff_false]
  rintro ⟨-, -, h3⟩
  linarith

/-- With a nonpositive `amortizationAmount` the annual extra-payment block
(and with it the strategy branch) is dead code: the loop body coincides for
any amortization amounts `≤ 0` and any two strategy strings. -/
lemma simStep_amort_nonpos (rate a a' : ℝ) (st st' : String) (s : SimState)
    (ha : a ≤ 0) (ha' : a' ≤ 0) :
    simStep rate a st s = simStep rate a' st' s := by
  simp only [simStep, amort_cond_false ha, amort_cond_false ha', if_false]

lemma simLoop_amort_nonpos (rate a a' : ℝ) (st st' : String)
    (ha : a ≤ 0) (ha' : a' ≤ 0) :
    ∀ fuel s, simLoop rate a st fuel s = simLoop rate a' st' fuel s := by
  intro fuel
  induction fuel with
  | zero => intro s; rfl
  | succ f ih =>
    intro s
    rw [simLoop_succ, simLoop_succ]
    by_cases hg : s.balance > 0.01 ∧ s.months < MAX_MONTHS
    · rw [if_pos hg, if_pos hg, simStep_amort_nonpos rate a a' st st' s ha ha']
      exact ih _
    · rw [if_neg hg, if_neg hg]

/-- CLAIM C6.  With `amortizationAmount = 0` the two strategies produce
identical results (same schedule, totals and months): the strategy branch
is never exercised. -/
theorem claimC6_strategy_irrelevant (params : SimulationParameters)
    (ha : params.amortizationAmount = 0) :
    simulate { params with strategy := "term" } =
      simulate { params with strategy := "quota" } := by
  unfold simulate finalState
  rw [simLoop_amort_nonpos (getMonthlyRate params.annualRate)
    params.amortizationAmount params.amortizationAmount "term" "quota"
    (le_of_eq ha) (le_of_eq ha)]
  rfl

/-- Witness for C6 at the spec's base scenario. -/
theorem claimC6_witness :
    (⟨95018, 2.55, 407.43, 0, "term"⟩ : SimulationParameters).amortizationAmount = 0 ∧
    simulate ⟨95018, 2.55, 407.43, 0, "term"⟩ = simulate ⟨95018, 2.55, 407.43, 0, "quota"⟩ :=
  ⟨rfl, claimC6_strategy_irrelevant ⟨95018, 2.55, 407.43, 0, "term"⟩ rfl⟩

/-- CLAIM C10.  A nonpositive `amortizationAmount` (including negative
values) raises no error and yields exactly the result of the same input
with `amortizationAmount = 0`: the extra-payment policy silently never fires. -/
theorem claimC10_negative_amort_disabled (params : SimulationParameters)
    (ha : params.amortizationAmount ≤ 0) :
    simulate params = simulate { params with amortizationAmount := 0 } := by
  unfold simulate finalState
  rw [simLoop_amort_nonpos (getMonthlyRate params.annualRate)
    params.amortizationAmount 0 params.strategy params.strategy ha le_rfl]
  rfl

/-- Witness for C10 at a negative amortization amount. -/
theorem claimC10_witness :
    (⟨1000, 5, 20, -3, "quota"⟩ : SimulationParameters).amortizationAmount ≤ 0 ∧
    simulate ⟨1000, 5, 20, -3, "quota"⟩ = simulate ⟨1000, 5, 20, 0, "quota"⟩ :=
  ⟨by norm_num, claimC10_negative_amort_disabled ⟨1000, 5, 20, -3, "quota"⟩ (by norm_num)⟩

/-! ### The zero-rate, no-amortization run

With `rate = 0` and `amortizationAmount = 0` each month pays
`min(currentPayment, balance)` of pure principal, and the loop stops as soon
as the balance falls to the `0.01` threshold, i.e. after exactly
`ceil((principal - 0.01) / monthlyPayment)` months. -/

lemma simStep_zero_rate (strategy : String) (s : SimState) :
    (simStep 0 0 strategy s).balance =
      s.balance - (if s.currentPayment > s.balance then s.balance else s.currentPayment) ∧
    (simStep 0 0 strategy s).currentPayment = s.currentPayment ∧
    (simStep 0 0 strategy s).totalInterest = s.totalInterest ∧
    (simStep 0 0 strategy s).months = s.months + 1 := by
  simp only [simStep, amort_cond_false (le_refl (0:ℝ)), if_false]
  norm_num

lemma div_nonpos_of_nonpos_of_nonneg {x y : ℝ} (hx : x ≤ 0) (hy : 0 ≤ y) : x / y ≤ 0 :=
  div_nonpos_iff.mpr (Or.inr ⟨hx, hy⟩)

lemma ceil_shift_one (x : ℝ) (hx : 0 < x) :
    Nat.ceil x = Nat.ceil (x - 1) + 1 := by
  rcases le_or_lt x 1 with h | h
  · have h1 : Nat.ceil x = 1 := by
      refine le_antisymm (Nat.ceil_le.mpr (by exact_mod_cast h)) ?_
      exact Nat.one_le_ceil_iff.mpr hx
    have h2 : Nat.ceil (x - 1) = 0 := Nat.ceil_eq_zero.mpr (by linarith)
    rw [h1, h2]
  · have hge : (0:ℝ) ≤ x - 1 := by linarith
    have hx1 : x = (x - 1) + 1 := by ring
    conv_lhs => rw [hx1]
    rw [Nat.ceil_add_one hge]

lemma simLoop_zero_rate (strategy : String) :
    ∀ fuel (s : SimState), 0 < s.currentPayment →
      s.months + fuel ≤ MAX_MONTHS →
      Nat.ceil ((s.balance - 0.01) / s.currentPayment) ≤ fuel →
      (simLoop 0 0 strategy fuel s).months =
        s.months + Nat.ceil ((s.balance - 0.01) / s.currentPayment) ∧
      (simLoop 0 0 strategy fuel s).totalInterest = s.totalInterest := by
  intro fuel
  induction fuel with
  | zero =>
    intro s hp hm hk
    rw [simLoop_zero]
    have : Nat.ceil ((s.balance - 0.01) / s.currentPayment) = 0 := Nat.le_zero.mp hk
    rw [this]
    exact ⟨rfl, rfl⟩
  | succ f ih =>
    intro s hp hm hk
    rw [simLoop_succ]
    by_cases hb : s.balance > 0.01
    · have hmlt : s.months < MAX_MONTHS := by omega
      rw [if_pos ⟨hb, hmlt⟩]
      obtain ⟨hbal, hcp, hti, hmo⟩ := simStep_zero_rate strategy s
      have hargpos : 0 < (s.balance - 0.01) / s.currentPayment := by
        apply div_pos (by linarith) hp
      have hkpos : 1 ≤ Nat.ceil ((s.balance - 0.01) / s.currentPayment) :=
        Nat.one_le_ceil_iff.mpr hargpos
      by_cases hcase : s.currentPayment > s.balance
      · -- final month: the capped payment clears the whole balance
        have hbal0 : (simStep 0 0 strategy s).balance = 0 := by
          rw [hbal, if_pos hcase]
          ring
        have hk1 : Nat.ceil ((s.balance - 0.01) / s.currentPayment) = 1 := by
          refine le_antisymm (Nat.ceil_le.mpr ?_) hkpos
          push_cast
          rw [div_le_one hp]
          linarith
        have hnext := ih (simStep 0 0 strategy s)
          (by rw [hcp]; exact hp)
          (by rw [hmo]; omega)
          (by rw [hbal0, hcp]
              have h0 : ((0:ℝ) - 0.01) / s.currentPayment ≤ 0 :=
                div_nonpos_of_nonpos_of_nonneg (by norm_num) (le_of_lt hp)
              rw [Nat.ceil_eq_zero.mpr h0]
              exact Nat.zero_le f)
        have hz : Nat.ceil (((simStep 0 0 strategy s).balance - 0.01) /
            (simStep 0 0 strategy s).currentPayment) = 0 := by
          rw [hbal0, hcp]
          exact Nat.ceil_eq_zero.mpr
            (div_nonpos_of_nonpos_of_nonneg (by norm_num) (le_of_lt hp))
        rw [hz] at hnext
        refine ⟨?_, by rw [hnext.2, hti]⟩
        rw [hnext.1, hmo, hk1]
      · -- regular month: the balance drops by exactly the current payment
        have hbal' : (simStep 0 0 strategy s).balance = s.balance - s.currentPayment := by
          rw [hbal, if_neg hcase]
        have hargshift : ((simStep 0 0 strategy s).balance - 0.01) /
            (simStep 0 0 strategy s).currentPayment =
            (s.balance - 0.01) / s.currentPayment - 1 := by
          rw [hbal', hcp]
          field_simp
          ring
        have hkshift : Nat.ceil ((s.balance - 0.01) / s.currentPayment) =
            Nat.ceil (((simStep 0 0 strategy s).balance - 0.01) /
              (simStep 0 0 strategy s).currentPayment) + 1 := by
          rw [hargshift]
          exact ceil_shift_one _ hargpos
        have hnext := ih (simStep 0 0 strategy s)
          (by rw [hcp]; exact hp)
          (by rw [hmo]; omega)
          (by omega)
        refine ⟨?_, by rw [hnext.2, hti]⟩
        rw [hnext.1, hmo]
        omega
    · rw [if_neg (fun hcon => hb hcon.1)]
      have harg : (s.balance - 0.01) / s.currentPayment ≤ 0 :=
        div_nonpos_of_nonpos_of_nonneg (by push_neg at hb; linarith) (le_of_lt hp)
      rw [Nat.ceil_eq_zero.mpr harg]
      exact ⟨rfl, rfl⟩

/-! ### The schedule is append-only -/

lemma simStep_schedule_concat (rate amortizationAmount : ℝ) (strategy : String)
    (s : SimState) :
    ∃ e, (simStep rate amortizationAmount strategy s).schedule = s.schedule ++ [e] := by
  simp only [simStep]
  split_ifs <;> exact ⟨_, rfl⟩

lemma simLoop_schedule_prefix (rate amortizationAmount : ℝ) (strategy : String) :
    ∀ fuel s, ∃ t,
      (simLoop rate amortizationAmount strategy fuel s).schedule = s.schedule ++ t := by
  intro fuel
  induction fuel with
  | zero => intro s; exact ⟨[], by rw [simLoop_zero, List.append_nil]⟩
  | succ f ih =>
    intro s
    rw [simLoop_succ]
    by_cases hg : s.balance > 0.01 ∧ s.months < MAX_MONTHS
    · rw [if_pos hg]
      obtain ⟨e, he⟩ := simStep_schedule_concat rate amortizationAmount strategy s
      obtain ⟨t, ht⟩ := ih (simStep rate amortizationAmount strategy s)
      exact ⟨e :: t, by rw [ht, he, List.append_assoc]; rfl⟩
    · rw [if_neg hg]
      exact ⟨[], (List.append_nil _).symm⟩

/-- Convenience: unfold one guarded loop iteration at an already-evaluated state. -/
lemma simLoop_step_eval (rate amortizationAmount : ℝ) (strategy : String)
    (fuel : ℕ) (s s' : SimState)
    (hg : s.balance > 0.01 ∧ s.months < MAX_MONTHS)
    (hstep : simStep rate amortizationAmount strategy s = s') :
    simLoop rate amortizationAmount strategy (fuel + 1) s =
      simLoop rate amortizationAmount strategy fuel s' := by
  rw [simLoop_succ, if_pos hg, hstep]

/-- CLAIM C5 (amended).  With `annualRatePercent = 0` and no amortization,
`totalInterest = 0` and `totalMonths = ceil((principal - 0.01) / monthlyPayment)`:
the loop stops at the 0.01 balance threshold, so the effective principal is
reduced by that threshold (this equals `ceil(principal / monthlyPayment)`
except when the final residual is at most 0.01). -/
theorem claimC5_zero_rate_months (P p : ℝ) (strategy : String)
    (hP : 0 < P) (hp : 0 < p)
    (hk : Nat.ceil ((P - 0.01) / p) ≤ MAX_MONTHS) :
    (simulate ⟨P, 0, p, 0, strategy⟩).totalInterest = 0 ∧
    (simulate ⟨P, 0, p, 0, strategy⟩).finalMonth = Nat.ceil ((P - 0.01) / p) := by
  have hrate : getMonthlyRate ((⟨P, 0, p, 0, strategy⟩ : SimulationParameters).annualRate)
      = 0 := by
    norm_num [getMonthlyRate]
  have hfs : finalState ⟨P, 0, p, 0, strategy⟩ =
      simLoop 0 0 strategy MAX_MONTHS (⟨P, p, 0, 0, 0, []⟩ : SimState) := by
    unfold finalState
    rw [hrate]
    rfl
  have hmain := simLoop_zero_rate strategy MAX_MONTHS (⟨P, p, 0, 0, 0, []⟩ : SimState)
    hp (by norm_num) hk
  constructor
  · show (finalState ⟨P, 0, p, 0, strategy⟩).totalInterest = 0
    rw [hfs]
    exact hmain.2
  · show (finalState ⟨P, 0, p, 0, strategy⟩).months = Nat.ceil ((P - 0.01) / p)
    rw [hfs, hmain.1]
    exact Nat.zero_add _

/-- Witness for C5 at concrete input ⟨100, 0, 10, 0, term⟩. -/
theorem claimC5_witness :
    (0:ℝ) < 100 ∧ (0:ℝ) < 10 ∧ Nat.ceil (((100:ℝ) - 0.01) / 10) ≤ MAX_MONTHS ∧
    ((simulate ⟨100, 0, 10, 0, "term"⟩).totalInterest = 0 ∧
     (simulate ⟨100, 0, 10, 0, "term"⟩).finalMonth = Nat.ceil (((100:ℝ) - 0.01) / 10)) := by
  have hk : Nat.ceil (((100:ℝ) - 0.01) / 10) ≤ MAX_MONTHS := by
    rw [Nat.ceil_le]
    norm_num [MAX_MONTHS]
  exact ⟨by norm_num, by norm_num, hk,
    claimC5_zero_rate_months 100 10 "term" (by norm_num) (by norm_num) hk⟩

/-- Counterexample to C5 as stated: at principal 10.005, payment 1, zero rate
and no amortization, the run takes 10 months (the residual 0.005 left after
10 payments is below the 0.01 stop threshold), while `ceil(10.005 / 1) = 11`. -/
theorem claimC5_counterexample :
    Nat.ceil ((10.005:ℝ) / 1) ≤ MAX_MONTHS ∧
    (simulate ⟨10.005, 0, 1, 0, "term"⟩).finalMonth ≠ Nat.ceil ((10.005:ℝ) / 1) := by
  have hk10 : Nat.ceil (((10.005:ℝ) - 0.01) / 1) = 10 := by
    rw [Nat.ceil_eq_iff (by norm_num)]
    norm_num
  have hk11 : Nat.ceil ((10.005:ℝ) / 1) = 11 := by
    rw [Nat.ceil_eq_iff (by norm_num)]
    norm_num
  constructor
  · rw [hk11]; norm_num [MAX_MONTHS]
  · have hrate : getMonthlyRate
        ((⟨10.005, 0, 1, 0, "term"⟩ : SimulationParameters).annualRate) = 0 := by
      norm_num [getMonthlyRate]
    have hfs : finalState ⟨10.005, 0, 1, 0, "term"⟩ =
        simLoop 0 0 "term" MAX_MONTHS (⟨10.005, 1, 0, 0, 0, []⟩ : SimState) := by
      unfold finalState
      rw [hrate]
      rfl
    have hkle : Nat.ceil (((10.005:ℝ) - 0.01) / 1) ≤ MAX_MONTHS := by
      rw [hk10]; norm_num [MAX_MONTHS]
    have hmain := simLoop_zero_rate "term" MAX_MONTHS (⟨10.005, 1, 0, 0, 0, []⟩ : SimState)
      (by norm_num) (by norm_num) hkle
    have hfin : (simulate ⟨10.005, 0, 1, 0, "term"⟩).finalMonth = 10 := by
      show (finalState ⟨10.005, 0, 1, 0, "term"⟩).months = 10
      rw [hfs, hmain.1]
      exact (Nat.zero_add _).trans hk10
    rw [hfin, hk11]
    decide

/-- Counterexample to C3 as stated: at the valid input principal 1000,
annual rate 12 percent, monthly payment 1 and yearly extra payment 10000
(term strategy), the payment does not cover the monthly interest, so the
balance grows month over month: `schedule[0].balance = 1009` but
`schedule[1].balance = 1018.09` (the run still terminates at month 12, where
the capped extra payment clears the balance). -/
theorem claimC3_counterexample :
    ¬(∀ (i j : ℕ) (hi : i < (simulate ⟨1000, 12, 1, 10000, "term"⟩).schedule.length)
        (hj : j < (simulate ⟨1000, 12, 1, 10000, "term"⟩).schedule.length), i ≤ j →
        ((simulate ⟨1000, 12, 1, 10000, "term"⟩).schedule.get ⟨j, hj⟩).balance ≤
          ((simulate ⟨1000, 12, 1, 10000, "term"⟩).schedule.get ⟨i, hi⟩).balance) := by
  intro hmono
  have hrate : getMonthlyRate
      ((⟨1000, 12, 1, 10000, "term"⟩ : SimulationParameters).annualRate) = 0.01 := by
    norm_num [getMonthlyRate]
  have hfs : finalState ⟨1000, 12, 1, 10000, "term"⟩ =
      simLoop 0.01 10000 "term" MAX_MONTHS (⟨1000, 1, 0, 0, 0, []⟩ : SimState) := by
    unfold finalState
    rw [hrate]
    rfl
  have hstep1 : simStep 0.01 10000 "term" (⟨1000, 1, 0, 0, 0, []⟩ : SimState) =
      ⟨1009, 1, 10, 1, 1, [⟨1, 1009, 10, 1, 10⟩]⟩ := by
    norm_num [simStep]
  have hstep2 : simStep 0.01 10000 "term"
      (⟨1009, 1, 10, 1, 1, [⟨1, 1009, 10, 1, 10⟩]⟩ : SimState) =
      ⟨1018.09, 1, 20.09, 2, 2, [⟨1, 1009, 10, 1, 10⟩, ⟨2, 1018.09, 10.09, 1, 20.09⟩]⟩ := by
    norm_num [simStep]
  have hev : simLoop 0.01 10000 "term" MAX_MONTHS (⟨1000, 1, 0, 0, 0, []⟩ : SimState) =
      simLoop 0.01 10000 "term" 1198
        (⟨1018.09, 1, 20.09, 2, 2,
          [⟨1, 1009, 10, 1, 10⟩, ⟨2, 1018.09, 10.09, 1, 20.09⟩]⟩ : SimState) := by
    rw [show MAX_MONTHS = 1199 + 1 from rfl,
      simLoop_step_eval 0.01 10000 "term" 1199 _ _
        ⟨by norm_num, by norm_num [MAX_MONTHS]⟩ hstep1,
      show (1199:ℕ) = 1198 + 1 from rfl,
      simLoop_step_eval 0.01 10000 "term" 1198 _ _
        ⟨by norm_num, by norm_num [MAX_MONTHS]⟩ hstep2]
  obtain ⟨t, ht⟩ := simLoop_schedule_prefix 0.01 10000 "term" 1198
    (⟨1018.09, 1, 20.09, 2, 2,
      [⟨1, 1009, 10, 1, 10⟩, ⟨2, 1018.09, 10.09, 1, 20.09⟩]⟩ : SimState)
  have hsched : (simulate ⟨1000, 12, 1, 10000, "term"⟩).schedule =
      (⟨1, 1009, 10, 1, 10⟩ : ScheduleEntry) :: ⟨2, 1018.09, 10.09, 1, 20.09⟩ :: t := by
    show (finalState ⟨1000, 12, 1, 10000, "term"⟩).schedule = _
    rw [hfs, hev, ht]
    rfl
  have hlen : 2 ≤ (simulate ⟨1000, 12, 1, 10000, "term"⟩).schedule.length := by
    rw [hsched]
    simp
  have h01 := hmono 0 1 (by omega) (by omega) (by omega)
  have hg0 := List.get_of_eq hsched (⟨0, by omega⟩ :
    Fin (simulate ⟨1000, 12, 1, 10000, "term"⟩).schedule.length)
  have hg1 := List.get_of_eq hsched (⟨1, by omega⟩ :
    Fin (simulate ⟨1000, 12, 1, 10000, "term"⟩).schedule.length)
  rw [hg0] at h01
  rw [hg1] at h01
  norm_num [List.get] at h01

/-! ### Exact closed form of the ReduceQuota payment recompute

When the remaining-term precondition `payment > monthlyRate * principal`
holds, the logarithms of `calculateRemainingMonths` cancel exactly against
the power of `calculateMonthlyPayment`: the recomputed payment is the old
payment scaled by `newBalance / oldBalance`. -/

lemma rpow_remainingMonths (r b p : ℝ) (hr : 0 < r) (hb : 0 < b) (hp : 0 < p)
    (hpre : r * b < p) :
    (1 + r) ^ calculateRemainingMonths b r p = (1 - r * b / p)⁻¹ := by
  have hu0 : 0 < 1 - r * b / p := by
    have : r * b / p < 1 := (div_lt_one hp).mpr hpre
    linarith
  have h1r : (0:ℝ) < 1 + r := by linarith
  have hlog : Real.log (1 + r) ≠ 0 := ne_of_gt (Real.log_pos (by linarith))
  rw [calculateRemainingMonths, if_neg (ne_of_gt hr), Real.rpow_def_of_pos h1r]
  have hcancel : Real.log (1 + r) * (-Real.log (1 - r * b / p) / Real.log (1 + r)) =
      -Real.log (1 - r * b / p) := by
    field_simp
    ring
  rw [hcancel, Real.exp_neg, Real.exp_log hu0]

lemma remainingMonths_pos (r b p : ℝ) (hr : 0 ≤ r) (hb : 0 < b) (hp : 0 < p)
    (hpre : r * b < p) :
    0 < calculateRemainingMonths b r p := by
  rcases eq_or_lt_of_le hr with h0 | hrpos
  · rw [calculateRemainingMonths, if_pos h0.symm]
    positivity
  · have hu0 : 0 < 1 - r * b / p := by
      have : r * b / p < 1 := (div_lt_one hp).mpr hpre
      linarith
    have hu1 : 1 - r * b / p < 1 := by
      have : 0 < r * b / p := by positivity
      linarith
    rw [calculateRemainingMonths, if_neg (ne_of_gt hrpos)]
    apply div_pos
    · simpa using Real.log_neg hu0 hu1
    · exact Real.log_pos (by linarith)

lemma recompute_closed_form (r b b2 p : ℝ) (hr : 0 ≤ r) (hb : 0 < b) (hb2 : 0 ≤ b2)
    (hp : 0 < p) (hpre : r * b < p) :
    calculateMonthlyPayment b2 r (calculateRemainingMonths b r p) = b2 * p / b := by
  rcases eq_or_lt_of_le hr with h0 | hrpos
  · rw [calculateMonthlyPayment, if_pos h0.symm, calculateRemainingMonths, if_pos h0.symm]
    rw [div_div_eq_mul_div]
  · have hu0 : 0 < 1 - r * b / p := by
      have : r * b / p < 1 := (div_lt_one hp).mpr hpre
      linarith
    have hu1 : 1 - r * b / p < 1 := by
      have : 0 < r * b / p := by positivity
      linarith
    rw [calculateMonthlyPayment, if_neg (ne_of_gt hrpos),
      rpow_remainingMonths r b p hrpos hb hp hpre]
    have hpm : (0:ℝ) < p - r * b := by linarith
    have hval : (1 - r * b / p)⁻¹ = p / (p - r * b) := by
      rw [one_sub_div (ne_of_gt hp), inv_div]
    rw [hval]
    have hA1 : p / (p - r * b) - 1 = r * b / (p - r * b) := by
      field_simp
    rw [hA1]
    have h1 : r * b / (p - r * b) ≠ 0 := by positivity
    rw [div_eq_div_iff h1 (ne_of_gt hb)]
    field_simp
    ring

/-- CLAIM C8.  Whenever the `quota` recompute actually executes (positive
balances, positive derived remaining term, precondition
`payment > rate * preAmortizationBalance` satisfied), the recomputed payment
`calculateMonthlyPayment b2 r (calculateRemainingMonths b r p)` is strictly
below the payment `p` in effect just before (here `b` is the pre-extra
balance and `b2 < b` the post-extra balance). -/
theorem claimC8_quota_lowers_payment (r b b2 p : ℝ) (hr : 0 ≤ r) (hb2 : 0 ≤ b2)
    (hlt : b2 < b) (hp : 0 < p) (hpre : r * b < p)
    (hN : 0 < calculateRemainingMonths b r p) :
    calculateMonthlyPayment b2 r (calculateRemainingMonths b r p) < p := by
  have hb : 0 < b := lt_of_le_of_lt hb2 hlt
  rw [recompute_closed_form r b b2 p hr hb hb2 hp hpre]
  rw [div_lt_iff hb]
  nlinarith

/-- Witness for C8 at concrete values `r = 0, b = 2, b2 = 1, p = 1`. -/
theorem claimC8_witness :
    (0:ℝ) ≤ 0 ∧ (0:ℝ) ≤ 1 ∧ (1:ℝ) < 2 ∧ (0:ℝ) < 1 ∧ (0:ℝ) * 2 < 1 ∧
    0 < calculateRemainingMonths 2 0 1 ∧
    calculateMonthlyPayment 1 0 (calculateRemainingMonths 2 0 1) < 1 := by
  have hN : (0:ℝ) < calculateRemainingMonths 2 0 1 := by
    norm_num [calculateRemainingMonths]
  exact ⟨le_refl 0, by norm_num, by norm_num, by norm_num, by norm_num, hN,
    claimC8_quota_lowers_payment 0 2 1 1 (le_refl 0) (by norm_num) (by norm_num)
      (by norm_num) (by norm_num) hN⟩

/-! ### Schedule monotonicity -/

/-- One loop iteration appends an entry carrying the updated accumulated
interest; with a nonnegative rate and balance the accumulated interest never
decreases and the balance stays nonnegative. -/
lemma simStep_entry_acc (rate a : ℝ) (st : String) (s : SimState)
    (hr : 0 ≤ rate) (hb : 0 ≤ s.balance) :
    ∃ e : ScheduleEntry,
      (simStep rate a st s).schedule = s.schedule ++ [e] ∧
      e.accumulatedInterest = (simStep rate a st s).totalInterest ∧
      s.totalInterest ≤ (simStep rate a st s).totalInterest ∧
      0 ≤ (simStep rate a st s).balance := by
  have hint : 0 ≤ s.balance * rate := mul_nonneg hb hr
  simp only [simStep]
  split_ifs with h1 h2 h3 h4 h5 h6 h7 <;>
    exact ⟨_, rfl, rfl, by simp; all_goals linarith, by simp; all_goals linarith⟩

lemma simStep_entry_bal (rate a : ℝ) (st : String) (s : SimState)
    (hr : 0 ≤ rate) (hb01 : 0.01 < s.balance)
    (hcover : rate * s.balance < s.currentPayment) :
    ∃ e : ScheduleEntry,
      (simStep rate a st s).schedule = s.schedule ++ [e] ∧
      e.balance = (simStep rate a st s).balance ∧
      0 ≤ (simStep rate a st s).balance ∧
      (simStep rate a st s).balance ≤ s.balance ∧
      (0.01 < (simStep rate a st s).balance →
        rate * (simStep rate a st s).balance < (simStep rate a st s).currentPayment) := by
  have hb : 0 < s.balance := by linarith
  have hp : 0 < s.currentPayment := lt_of_le_of_lt (mul_nonneg hr hb.le) hcover
  simp only [simStep]
  split_ifs with h1 h2 h3 h4 h5 h6 h7 h8 h9 h10 h11 h12 h13
  -- the six capped-payment leaves with the extra block are vacuous:
  -- a capped payment clears the balance, so the block's balance > 0 guard fails
  · exfalso; obtain ⟨-, hx, -⟩ := h2; linarith
  · exfalso; obtain ⟨-, hx, -⟩ := h2; linarith
  · exfalso; obtain ⟨-, hx, -⟩ := h2; linarith
  · exfalso; obtain ⟨-, hx, -⟩ := h2; linarith
  · exfalso; obtain ⟨-, hx, -⟩ := h2; linarith
  · exfalso; obtain ⟨-, hx, -⟩ := h2; linarith
  -- capped payment, no extra block: the balance is cleared to 0
  · refine ⟨_, rfl, ?_, ?_, ?_, ?_⟩
    · simp
    · simp
    · simp; all_goals linarith
    · simp; intro hc; all_goals linarith
  -- uncapped payment, extra capped at the whole balance: balance cleared to 0
  · obtain ⟨-, hb1, hapos⟩ := h8
    refine ⟨_, rfl, ?_, ?_, ?_, ?_⟩
    · simp
    · simp
    · simp; all_goals linarith
    · simp; intro hc; all_goals linarith
  · obtain ⟨-, hb1, hapos⟩ := h8
    refine ⟨_, rfl, ?_, ?_, ?_, ?_⟩
    · simp
    · simp
    · simp; all_goals linarith
    · simp; intro hc; all_goals linarith
  · obtain ⟨-, hb1, hapos⟩ := h8
    refine ⟨_, rfl, ?_, ?_, ?_, ?_⟩
    · simp
    · simp
    · simp; all_goals linarith
    · simp; intro hc; all_goals linarith
  -- uncapped payment, extra = a, quota recompute fires: closed form
  · obtain ⟨-, hb1, hapos⟩ := h8
    push_neg at h9
    have hble : s.balance - (s.currentPayment - s.balance * rate) ≤ s.balance := by linarith
    have hlt : rate * (s.balance - (s.currentPayment - s.balance * rate)) <
        s.currentPayment := by
      have := mul_le_mul_of_nonneg_left hble hr
      linarith
    refine ⟨_, rfl, ?_, ?_, ?_, ?_⟩
    · exact max_eq_right (by linarith)
    · simp; all_goals linarith
    · simp; all_goals linarith
    · intro hc
      simp at hc
      simp only [SimState.balance, SimState.currentPayment]
      rw [sub_add_cancel,
        recompute_closed_form rate _ _ s.currentPayment hr hb1 (by linarith) hp hlt]
      rw [lt_div_iff hb1]
      have h2pos : 0 < s.balance - (s.currentPayment - s.balance * rate) - a := by
        linarith
      have hppos : 0 < s.currentPayment -
          rate * (s.balance - (s.currentPayment - s.balance * rate)) := by linarith
      nlinarith [mul_pos h2pos hppos]
  -- uncapped payment, extra = a, quota recompute held
  · obtain ⟨-, hb1, hapos⟩ := h8
    push_neg at h9
    refine ⟨_, rfl, ?_, ?_, ?_, ?_⟩
    · exact max_eq_right (by linarith)
    · simp; all_goals linarith
    · simp; all_goals linarith
    · intro hc
      simp at hc ⊢
      have hble : s.balance - (s.currentPayment - s.balance * rate) - a ≤ s.balance := by
        linarith
      have := mul_le_mul_of_nonneg_left hble hr
      linarith
  -- uncapped payment, extra = a, term strategy
  · obtain ⟨-, hb1, hapos⟩ := h8
    push_neg at h9
    refine ⟨_, rfl, ?_, ?_, ?_, ?_⟩
    · exact max_eq_right (by linarith)
    · simp; all_goals linarith
    · simp; all_goals linarith
    · intro hc
      simp at hc ⊢
      have hble : s.balance - (s.currentPayment - s.balance * rate) - a ≤ s.balance := by
        linarith
      have := mul_le_mul_of_nonneg_left hble hr
      linarith
  -- uncapped payment, no extra block
  · refine ⟨_, rfl, ?_, ?_, ?_, ?_⟩
    · exact max_eq_right (by linarith)
    · simp; all_goals linarith
    · simp; all_goals linarith
    · intro hc
      simp at hc ⊢
      have hble : s.balance - (s.currentPayment - s.balance * rate) ≤ s.balance := by linarith
      have := mul_le_mul_of_nonneg_left hble hr
      linarith

/-- A transitive, reflexive chain along a list gives the indexed ordering. -/
lemma chain'_trans_get {α : Type} (R : α → α → Prop)
    (hTrans : ∀ x y z, R x y → R y z → R x z) (hRefl : ∀ x, R x x)
    (l : List α) (h : List.Chain' R l) :
    ∀ (i j : ℕ) (hi : i < l.length) (hj : j < l.length), i ≤ j →
      R (l.get ⟨i, hi⟩) (l.get ⟨j, hj⟩) := by
  haveI : IsTrans α R := ⟨fun x y z => hTrans x y z⟩
  have hpair : List.Pairwise R l := List.chain'_iff_pairwise.mp h
  intro i j hi hj hij
  rcases eq_or_lt_of_le hij with rfl | hlt
  · exact hRefl _
  · exact List.pairwise_iff_get.mp hpair ⟨i, hi⟩ ⟨j, hj⟩ hlt

/-- Loop invariant for the accumulated-interest chain: with a nonnegative
rate, each appended entry carries a larger accumulated interest. -/
lemma simLoop_acc_chain (rate a : ℝ) (st : String) (hr : 0 ≤ rate)
    (fuel : ℕ) (s : SimState)
    (h : 0 ≤ s.balance ∧
      List.Chain' (fun e1 e2 : ScheduleEntry =>
        e1.accumulatedInterest ≤ e2.accumulatedInterest) s.schedule ∧
      (∀ e ∈ s.schedule.getLast?, e.accumulatedInterest ≤ s.totalInterest)) :
    0 ≤ (simLoop rate a st fuel s).balance ∧
    List.Chain' (fun e1 e2 : ScheduleEntry =>
      e1.accumulatedInterest ≤ e2.accumulatedInterest)
      (simLoop rate a st fuel s).schedule ∧
    (∀ e ∈ (simLoop rate a st fuel s).schedule.getLast?,
      e.accumulatedInterest ≤ (simLoop rate a st fuel s).totalInterest) := by
  refine simLoop_inv rate a st
    (fun t => 0 ≤ t.balance ∧
      List.Chain' (fun e1 e2 : ScheduleEntry =>
        e1.accumulatedInterest ≤ e2.accumulatedInterest) t.schedule ∧
      (∀ e ∈ t.schedule.getLast?, e.accumulatedInterest ≤ t.totalInterest))
    ?_ fuel s h
  intro t _ _ ht
  obtain ⟨htb, htc, htl⟩ := ht
  obtain ⟨e, he, heacc, hmono, hbal⟩ := simStep_entry_acc rate a st t hr htb
  refine ⟨hbal, ?_, ?_⟩
  · rw [he, List.chain'_append]
    refine ⟨htc, List.chain'_singleton e, ?_⟩
    intro x hx y hy
    simp only [List.head?_cons, Option.mem_def, Option.some.injEq] at hy
    subst hy
    have := htl x hx
    rw [heacc]
    linarith
  · intro e' he'
    rw [he, List.getLast?_concat] at he'
    simp only [Option.mem_def, Option.some.injEq] at he'
    subst he'
    rw [heacc]

/-- Loop invariant for the balance chain: with a nonnegative rate and a
payment that strictly covers the interest, the balance decreases and each
appended entry carries a smaller balance. -/
lemma simLoop_bal_chain (rate a : ℝ) (st : String) (hr : 0 ≤ rate)
    (fuel : ℕ) (s : SimState)
    (h : 0 ≤ s.balance ∧
      (0.01 < s.balance → rate * s.balance < s.currentPayment) ∧
      List.Chain' (fun e1 e2 : ScheduleEntry => e2.balance ≤ e1.balance) s.schedule ∧
      (∀ e ∈ s.schedule.getLast?, s.balance ≤ e.balance)) :
    List.Chain' (fun e1 e2 : ScheduleEntry => e2.balance ≤ e1.balance)
      (simLoop rate a st fuel s).schedule := by
  have key := simLoop_inv rate a st
    (fun t => 0 ≤ t.balance ∧
      (0.01 < t.balance → rate * t.balance < t.currentPayment) ∧
      List.Chain' (fun e1 e2 : ScheduleEntry => e2.balance ≤ e1.balance) t.schedule ∧
      (∀ e ∈ t.schedule.getLast?, t.balance ≤ e.balance))
    ?_ fuel s h
  · exact key.2.2.1
  intro t hgt _ ht
  obtain ⟨htb, htcov, htc, htl⟩ := ht
  obtain ⟨e, he, heb, hb0, hble, hcond⟩ := simStep_entry_bal rate a st t hr hgt (htcov hgt)
  refine ⟨hb0, hcond, ?_, ?_⟩
  · rw [he, List.chain'_append]
    refine ⟨htc, List.chain'_singleton e, ?_⟩
    intro x hx y hy
    simp only [List.head?_cons, Option.mem_def, Option.some.injEq] at hy
    subst hy
    have := htl x hx
    rw [heb]
    linarith
  · intro e' he'
    rw [he, List.getLast?_concat] at he'
    simp only [Option.mem_def, Option.some.injEq] at he'
    subst he'
    rw [heb]

/-- CLAIM C3 (amended).  For every valid input the `accumulatedInterest`
field of the schedule is monotonically non-decreasing in the month index;
and if additionally the monthly payment strictly exceeds the interest-only
amount `monthlyRate * principal`, the `balance` field is monotonically
non-increasing (without that extra hypothesis the balance can grow, see the
counterexample). -/
theorem claimC3_schedule_monotone (params : SimulationParameters)
    (hP : 0 < params.principal) (hr : 0 ≤ params.annualRate)
    (hp : 0 < params.monthlyPayment) (ha : 0 ≤ params.amortizationAmount) :
    (∀ (i j : ℕ) (hi : i < (simulate params).schedule.length)
       (hj : j < (simulate params).schedule.length), i ≤ j →
       ((simulate params).schedule.get ⟨i, hi⟩).accumulatedInterest ≤
         ((simulate params).schedule.get ⟨j, hj⟩).accumulatedInterest) ∧
    (getMonthlyRate params.annualRate * params.principal < params.monthlyPayment →
      ∀ (i j : ℕ) (hi : i < (simulate params).schedule.length)
        (hj : j < (simulate params).schedule.length), i ≤ j →
        ((simulate params).schedule.get ⟨j, hj⟩).balance ≤
          ((simulate params).schedule.get ⟨i, hi⟩).balance) := by
  have hrate : 0 ≤ getMonthlyRate params.annualRate := by
    unfold getMonthlyRate
    positivity
  constructor
  · have hacc := simLoop_acc_chain (getMonthlyRate params.annualRate)
      params.amortizationAmount params.strategy hrate MAX_MONTHS (initState params)
      ⟨le_of_lt hP, List.chain'_nil, by intro e he; simp [initState] at he⟩
    exact chain'_trans_get
      (fun e1 e2 : ScheduleEntry => e1.accumulatedInterest ≤ e2.accumulatedInterest)
      (fun x y z h1 h2 => le_trans h1 h2) (fun x => le_refl _)
      ((simulate params).schedule) hacc.2.1
  · intro hcover
    have hbal := simLoop_bal_chain (getMonthlyRate params.annualRate)
      params.amortizationAmount params.strategy hrate MAX_MONTHS (initState params)
      ⟨le_of_lt hP, fun _ => hcover, List.chain'_nil, by intro e he; simp [initState] at he⟩
    intro i j hi hj hij
    exact chain'_trans_get (fun e1 e2 : ScheduleEntry => e2.balance ≤ e1.balance)
      (fun x y z h1 h2 => le_trans h2 h1) (fun x => le_refl _)
      ((simulate params).schedule) hbal i j hi hj hij

/-- Witness for C3 at concrete input ⟨1000, 12, 20, 100, quota⟩ (the payment
20 exceeds the interest-only amount 10). -/
theorem claimC3_witness :
    (0:ℝ) < 1000 ∧ (0:ℝ) ≤ 12 ∧ (0:ℝ) < 20 ∧ (0:ℝ) ≤ 100 ∧
    ((∀ (i j : ℕ)
        (hi : i < (simulate ⟨1000, 12, 20, 100, "quota"⟩).schedule.length)
        (hj : j < (simulate ⟨1000, 12, 20, 100, "quota"⟩).schedule.length), i ≤ j →
        ((simulate ⟨1000, 12, 20, 100, "quota"⟩).schedule.get
            ⟨i, hi⟩).accumulatedInterest ≤
          ((simulate ⟨1000, 12, 20, 100, "quota"⟩).schedule.get
            ⟨j, hj⟩).accumulatedInterest) ∧
      (getMonthlyRate ((⟨1000, 12, 20, 100, "quota"⟩ :
          SimulationParameters).annualRate) * 1000 < 20 →
        ∀ (i j : ℕ)
          (hi : i < (simulate ⟨1000, 12, 20, 100, "quota"⟩).schedule.length)
          (hj : j < (simulate ⟨1000, 12, 20, 100, "quota"⟩).schedule.length), i ≤ j →
          ((simulate ⟨1000, 12, 20, 100, "quota"⟩).schedule.get ⟨j, hj⟩).balance ≤
            ((simulate ⟨1000, 12, 20, 100, "quota"⟩).schedule.get ⟨i, hi⟩).balance)) :=
  ⟨by norm_num, by norm_num, by norm_num, by norm_num,
    claimC3_schedule_monotone ⟨1000, 12, 20, 100, "quota"⟩ (by norm_num) (by norm_num)
      (by norm_num) (by norm_num)⟩

/-- CLAIM C9.  Comparator antisymmetry:
`compare(A, B).savings.interest = -(compare(B, A).savings.interest)`. -/
theorem claimC9_compare_antisymm (A B : SimulationParameters) :
    (Mortgage.compare A B).savings.interest = -((Mortgage.compare B A).savings.interest) := by
  unfold Mortgage.compare
  ring

/-! ### The degenerate ReduceQuota recompute regimes (claims C4 and C7)

The two theorems below machine-check, inside the exact-real model, the
month-by-month trace of the failing inputs reported for claims C4 and C7 up
to month 11 — the last month on which the model and the JavaScript program
agree exactly — and then exhibit the degenerate value fed to the month-12
recompute.  JavaScript semantics of the final recompute step (`Math.log 0 =
-Infinity`, `Math.log` of a negative number `= NaN`) is outside the exact
real numbers, which is why the divergent step itself is stated on the
formula arguments rather than evaluated further. -/

/-- CLAIM C4 (code bug).  At input ⟨100, 1200, 100, 50, quota⟩ (monthly rate
1), the run reaches month 12 with pre-amortization balance 100 and payment
100: the remaining-months precondition `payment > rate * balance` is
violated with exact equality, the logarithm argument is `1 - (1*100)/100 = 0`,
and in the model `calculateRemainingMonths 100 1 100 = 0` (Mathlib junk
`log 0 = 0`), while JavaScript gets `-Math.log(0) = +Infinity > 0`, so the
guard passes and `calculateMonthlyPayment` returns `Infinity/Infinity = NaN`,
which then propagates into month 13's payment, balance and `totalPaid`. -/
theorem claimC4_degenerate_recompute_reached :
    finalState ⟨100, 1200, 100, 50, "quota"⟩ =
      simLoop 1 50 "quota" 1189
        (⟨100, 100, 1100, 1100, 11,
       [⟨1, 100, 100, 100, 100⟩,
        ⟨2, 100, 100, 100, 200⟩,
        ⟨3, 100, 100, 100, 300⟩,
        ⟨4, 100, 100, 100, 400⟩,
        ⟨5, 100, 100, 100, 500⟩,
        ⟨6, 100, 100, 100, 600⟩,
        ⟨7, 100, 100, 100, 700⟩,
        ⟨8, 100, 100, 100, 800⟩,
        ⟨9, 100, 100, 100, 900⟩,
        ⟨10, 100, 100, 100, 1000⟩,
        ⟨11, 100, 100, 100, 1100⟩]⟩ : SimState) ∧
    (1:ℝ) - (1 * 100) / 100 = 0 ∧
    calculateRemainingMonths 100 1 100 = 0 := by
  have hstep1 : simStep 1 50 "quota"
      (⟨100, 100, 0, 0, 0, []⟩ : SimState) =
      ⟨100, 100, 100, 100, 1,
       [⟨1, 100, 100, 100, 100⟩]⟩ := by
    norm_num [simStep]
  have hstep2 : simStep 1 50 "quota"
      (⟨100, 100, 100, 100, 1,
       [⟨1, 100, 100, 100, 100⟩]⟩ : SimState) =
      ⟨100, 100, 200, 200, 2,
       [⟨1, 100, 100, 100, 100⟩,
        ⟨2, 100, 100, 100, 200⟩]⟩ := by
    norm_num [simStep]
  have hstep3 : simStep 1 50 "quota"
      (⟨100, 100, 200, 200, 2,
       [⟨1, 100, 100, 100, 100⟩,
        ⟨2, 100, 100, 100, 200⟩]⟩ : SimState) =
      ⟨100, 100, 300, 300, 3,
       [⟨1, 100, 100, 100, 100⟩,
        ⟨2, 100, 100, 100, 200⟩,
        ⟨3, 100, 100, 100, 300⟩]⟩ := by
    norm_num [simStep]
  have hstep4 : simStep 1 50 "quota"
      (⟨100, 100, 300, 300, 3,
       [⟨1, 100, 100, 100, 100⟩,
        ⟨2, 100, 100, 100, 200⟩,
        ⟨3, 100, 100, 100, 300⟩]⟩ : SimState) =
      ⟨100, 100, 400, 400, 4,
       [⟨1, 100, 100, 100, 100⟩,
        ⟨2, 100, 100, 100, 200⟩,
        ⟨3, 100, 100, 100, 300⟩,
        ⟨4, 100, 100, 100, 400⟩]⟩ := by
    norm_num [simStep]
  have hstep5 : simStep 1 50 "quota"
      (⟨100, 100, 400, 400, 4,
       [⟨1, 100, 100, 100, 100⟩,
        ⟨2, 100, 100, 100, 200⟩,
        ⟨3, 100, 100, 100, 300⟩,
        ⟨4, 100, 100, 100, 400⟩]⟩ : SimState) =
      ⟨100, 100, 500, 500, 5,
       [⟨1, 100, 100, 100, 100⟩,
        ⟨2, 100, 100, 100, 200⟩,
        ⟨3, 100, 100, 100, 300⟩,
        ⟨4, 100, 100, 100, 400⟩,
        ⟨5, 100, 100, 100, 500⟩]⟩ := by
    norm_num [simStep]
  have hstep6 : simStep 1 50 "quota"
      (⟨100, 100, 500, 500, 5,
       [⟨1, 100, 100, 100, 100⟩,
        ⟨2, 100, 100, 100, 200⟩,
        ⟨3, 100, 100, 100, 300⟩,
        ⟨4, 100, 100, 100, 400⟩,
        ⟨5, 100, 100, 100, 500⟩]⟩ : SimState) =
      ⟨100, 100, 600, 600, 6,
       [⟨1, 100, 100, 100, 100⟩,
        ⟨2, 100, 100, 100, 200⟩,
        ⟨3, 100, 100, 100, 300⟩,
        ⟨4, 100, 100, 100, 400⟩,
        ⟨5, 100, 100, 100, 500⟩,
        ⟨6, 100, 100, 100, 600⟩]⟩ := by
    norm_num [simStep]
  have hstep7 : simStep 1 50 "quota"
      (⟨100, 100, 600, 600, 6,
       [⟨1, 100, 100, 100, 100⟩,
        ⟨2, 100, 100, 100, 200⟩,
        ⟨3, 100, 100, 100, 300⟩,
        ⟨4, 100, 100, 100, 400⟩,
        ⟨5, 100, 100, 100, 500⟩,
        ⟨6, 100, 100, 100, 600⟩]⟩ : SimState) =
      ⟨100, 100, 700, 700, 7,
       [⟨1, 100, 100, 100, 100⟩,
        ⟨2, 100, 100, 100, 200⟩,
        ⟨3, 100, 100, 100, 300⟩,
        ⟨4, 100, 100, 100, 400⟩,
        ⟨5, 100, 100, 100, 500⟩,
        ⟨6, 100, 100, 100, 600⟩,
        ⟨7, 100, 100, 100, 700⟩]⟩ := by
    norm_num [simStep]
  have hstep8 : simStep 1 50 "quota"
      (⟨100, 100, 700, 700, 7,
       [⟨1, 100, 100, 100, 100⟩,
        ⟨2, 100, 100, 100, 200⟩,
        ⟨3, 100, 100, 100, 300⟩,
        ⟨4, 100, 100, 100, 400⟩,
        ⟨5, 100, 100, 100, 500⟩,
        ⟨6, 100, 100, 100, 600⟩,
        ⟨7, 100, 100, 100, 700⟩]⟩ : SimState) =
      ⟨100, 100, 800, 800, 8,
       [⟨1, 100, 100, 100, 100⟩,
        ⟨2, 100, 100, 100, 200⟩,
        ⟨3, 100, 100, 100, 300⟩,
        ⟨4, 100, 100, 100, 400⟩,
        ⟨5, 100, 100, 100, 500⟩,
        ⟨6, 100, 100, 100, 600⟩,
        ⟨7, 100, 100, 100, 700⟩,
        ⟨8, 100, 100, 100, 800⟩]⟩ := by
    norm_num [simStep]
  have hstep9 : simStep 1 50 "quota"
      (⟨100, 100, 800, 800, 8,
       [⟨1, 100, 100, 100, 100⟩,
        ⟨2, 100, 100, 100, 200⟩,
        ⟨3, 100, 100, 100, 300⟩,
        ⟨4, 100, 100, 100, 400⟩,
        ⟨5, 100, 100, 100, 500⟩,
        ⟨6, 100, 100, 100, 600⟩,
        ⟨7, 100, 100, 100, 700⟩,
        ⟨8, 100, 100, 100, 800⟩]⟩ : SimState) =
      ⟨100, 100, 900, 900, 9,
       [⟨1, 100, 100, 100, 100⟩,
        ⟨2, 100, 100, 100, 200⟩,
        ⟨3, 100, 100, 100, 300⟩,
        ⟨4, 100, 100, 100, 400⟩,
        ⟨5, 100, 100, 100, 500⟩,
        ⟨6, 100, 100, 100, 600⟩,
        ⟨7, 100, 100, 100, 700⟩,
        ⟨8, 100, 100, 100, 800⟩,
        ⟨9, 100, 100, 100, 900⟩]⟩ := by
    norm_num [simStep]
  have hstep10 : simStep 1 50 "quota"
      (⟨100, 100, 900, 900, 9,
       [⟨1, 100, 100, 100, 100⟩,
        ⟨2, 100, 100, 100, 200⟩,
        ⟨3, 100, 100, 100, 300⟩,
        ⟨4, 100, 100, 100, 400⟩,
        ⟨5, 100, 100, 100, 500⟩,
        ⟨6, 100, 100, 100, 600⟩,
        ⟨7, 100, 100, 100, 700⟩,
        ⟨8, 100, 100, 100, 800⟩,
        ⟨9, 100, 100, 100, 900⟩]⟩ : SimState) =
      ⟨100, 100, 1000, 1000, 10,
       [⟨1, 100, 100, 100, 100⟩,
        ⟨2, 100, 100, 100, 200⟩,
        ⟨3, 100, 100, 100, 300⟩,
        ⟨4, 100, 100, 100, 400⟩,
        ⟨5, 100, 100, 100, 500⟩,
        ⟨6, 100, 100, 100, 600⟩,
        ⟨7, 100, 100, 100, 700⟩,
        ⟨8, 100, 100, 100, 800⟩,
        ⟨9, 100, 100, 100, 900⟩,
        ⟨10, 100, 100, 100, 1000⟩]⟩ := by
    norm_num [simStep]
  have hstep11 : simStep 1 50 "quota"
      (⟨100, 100, 1000, 1000, 10,
       [⟨1, 100, 100, 100, 100⟩,
        ⟨2, 100, 100, 100, 200⟩,
        ⟨3, 100, 100, 100, 300⟩,
        ⟨4, 100, 100, 100, 400⟩,
        ⟨5, 100, 100, 100, 500⟩,
        ⟨6, 100, 100, 100, 600⟩,
        ⟨7, 100, 100, 100, 700⟩,
        ⟨8, 100, 100, 100, 800⟩,
        ⟨9, 100, 100, 100, 900⟩,
        ⟨10, 100, 100, 100, 1000⟩]⟩ : SimState) =
      ⟨100, 100, 1100, 1100, 11,
       [⟨1, 100, 100, 100, 100⟩,
        ⟨2, 100, 100, 100, 200⟩,
        ⟨3, 100, 100, 100, 300⟩,
        ⟨4, 100, 100, 100, 400⟩,
        ⟨5, 100, 100, 100, 500⟩,
        ⟨6, 100, 100, 100, 600⟩,
        ⟨7, 100, 100, 100, 700⟩,
        ⟨8, 100, 100, 100, 800⟩,
        ⟨9, 100, 100, 100, 900⟩,
        ⟨10, 100, 100, 100, 1000⟩,
        ⟨11, 100, 100, 100, 1100⟩]⟩ := by
    norm_num [simStep]
  have hev : simLoop 1 50 "quota" MAX_MONTHS
      (⟨100, 100, 0, 0, 0, []⟩ : SimState) =
      simLoop 1 50 "quota" 1189
      (⟨100, 100, 1100, 1100, 11,
       [⟨1, 100, 100, 100, 100⟩,
        ⟨2, 100, 100, 100, 200⟩,
        ⟨3, 100, 100, 100, 300⟩,
        ⟨4, 100, 100, 100, 400⟩,
        ⟨5, 100, 100, 100, 500⟩,
        ⟨6, 100, 100, 100, 600⟩,
        ⟨7, 100, 100, 100, 700⟩,
        ⟨8, 100, 100, 100, 800⟩,
        ⟨9, 100, 100, 100, 900⟩,
        ⟨10, 100, 100, 100, 1000⟩,
        ⟨11, 100, 100, 100, 1100⟩]⟩ : SimState) := by
    rw [show MAX_MONTHS = 1199 + 1 from rfl,
      simLoop_step_eval 1 50 "quota" 1199 _ _
        ⟨by norm_num, by norm_num [MAX_MONTHS]⟩ hstep1]
    rw [show (1199:ℕ) = 1198 + 1 from rfl,
      simLoop_step_eval 1 50 "quota" 1198 _ _
        ⟨by norm_num, by norm_num [MAX_MONTHS]⟩ hstep2]
    rw [show (1198:ℕ) = 1197 + 1 from rfl,
      simLoop_step_eval 1 50 "quota" 1197 _ _
        ⟨by norm_num, by norm_num [MAX_MONTHS]⟩ hstep3]
    rw [show (1197:ℕ) = 1196 + 1 from rfl,
      simLoop_step_eval 1 50 "quota" 1196 _ _
        ⟨by norm_num, by norm_num [MAX_MONTHS]⟩ hstep4]
    rw [show (1196:ℕ) = 1195 + 1 from rfl,
      simLoop_step_eval 1 50 "quota" 1195 _ _
        ⟨by norm_num, by norm_num [MAX_MONTHS]⟩ hstep5]
    rw [show (1195:ℕ) = 1194 + 1 from rfl,
      simLoop_step_eval 1 50 "quota" 1194 _ _
        ⟨by norm_num, by norm_num [MAX_MONTHS]⟩ hstep6]
    rw [show (1194:ℕ) = 1193 + 1 from rfl,
      simLoop_step_eval 1 50 "quota" 1193 _ _
        ⟨by norm_num, by norm_num [MAX_MONTHS]⟩ hstep7]
    rw [show (1193:ℕ) = 1192 + 1 from rfl,
      simLoop_step_eval 1 50 "quota" 1192 _ _
        ⟨by norm_num, by norm_num [MAX_MONTHS]⟩ hstep8]
    rw [show (1192:ℕ) = 1191 + 1 from rfl,
      simLoop_step_eval 1 50 "quota" 1191 _ _
        ⟨by norm_num, by norm_num [MAX_MONTHS]⟩ hstep9]
    rw [show (1191:ℕ) = 1190 + 1 from rfl,
      simLoop_step_eval 1 50 "quota" 1190 _ _
        ⟨by norm_num, by norm_num [MAX_MONTHS]⟩ hstep10]
    rw [show (1190:ℕ) = 1189 + 1 from rfl,
      simLoop_step_eval 1 50 "quota" 1189 _ _
        ⟨by norm_num, by norm_num [MAX_MONTHS]⟩ hstep11]
  refine ⟨?_, by norm_num, ?_⟩
  · unfold finalState
    have hrate : getMonthlyRate
        ((⟨100, 1200, 100, 50, "quota"⟩ : SimulationParameters).annualRate) = 1 := by
      norm_num [getMonthlyRate]
    rw [hrate]
    exact hev
  · rw [calculateRemainingMonths, if_neg (by norm_num)]
    norm_num [Real.log_zero]

/-- CLAIM C7 (code bug).  At input ⟨30000, 30, 500, 13000, quota⟩ (monthly
rate 0.025), the run reaches month 12 with pre-amortization balance
`33448.888…`, so the month-12 recompute's logarithm argument
`1 - rate*balance/payment` is negative: JavaScript's `Math.log` returns
`NaN` there and the recompute is silently skipped.  This is the regime in
which the reported C7 failing input lives (amortization 13000 versus 13500,
the larger one ends with strictly more total interest); past this month the
exact-real model (where `Real.log` of a negative argument is `log |x|`)
no longer follows the program, so the remaining months are not evaluated
here. -/
theorem claimC7_degenerate_regime_reached :
    finalState ⟨30000, 30, 500, 13000, "quota"⟩ =
      simLoop 0.025 13000 "quota" 1189
        (⟨33120.86657801266767978668212890625, 500, 8620.86657801266767978668212890625, 5500, 11,
       [⟨1, 30250, 750, 500, 750⟩,
        ⟨2, 30506.25, 756.25, 500, 1506.25⟩,
        ⟨3, 30768.90625, 762.65625, 500, 2268.90625⟩,
        ⟨4, 31038.12890625, 769.22265625, 500, 3038.12890625⟩,
        ⟨5, 31314.08212890625, 775.95322265625, 500, 3814.08212890625⟩,
        ⟨6, 31596.93418212890625, 782.85205322265625, 500, 4596.93418212890625⟩,
        ⟨7, 31886.85753668212890625, 789.92335455322265625, 500, 5386.85753668212890625⟩,
        ⟨8, 32184.02897509918212890625, 797.17143841705322265625, 500, 6184.02897509918212890625⟩,
        ⟨9, 32488.62969947666168212890625, 804.60072437747955322265625, 500, 6988.62969947666168212890625⟩,
        ⟨10, 32800.84544196357822418212890625, 812.21574248691654205322265625, 500, 7800.84544196357822418212890625⟩,
        ⟨11, 33120.86657801266767978668212890625, 820.02113604908945560455322265625, 500, 8620.86657801266767978668212890625⟩]⟩ : SimState) ∧
    (1:ℝ) - (0.025 * ((33120.86657801266767978668212890625:ℝ) * (1 + 0.025) - 500)) / 500
      < 0 := by
  have hstep1 : simStep 0.025 13000 "quota"
      (⟨30000, 500, 0, 0, 0, []⟩ : SimState) =
      ⟨30250, 500, 750, 500, 1,
       [⟨1, 30250, 750, 500, 750⟩]⟩ := by
    norm_num [simStep]
  have hstep2 : simStep 0.025 13000 "quota"
      (⟨30250, 500, 750, 500, 1,
       [⟨1, 30250, 750, 500, 750⟩]⟩ : SimState) =
      ⟨30506.25, 500, 1506.25, 1000, 2,
       [⟨1, 30250, 750, 500, 750⟩,
        ⟨2, 30506.25, 756.25, 500, 1506.25⟩]⟩ := by
    norm_num [simStep]
  have hstep3 : simStep 0.025 13000 "quota"
      (⟨30506.25, 500, 1506.25, 1000, 2,
       [⟨1, 30250, 750, 500, 750⟩,
        ⟨2, 30506.25, 756.25, 500, 1506.25⟩]⟩ : SimState) =
      ⟨30768.90625, 500, 2268.90625, 1500, 3,
       [⟨1, 30250, 750, 500, 750⟩,
        ⟨2, 30506.25, 756.25, 500, 1506.25⟩,
        ⟨3, 30768.90625, 762.65625, 500, 2268.90625⟩]⟩ := by
    norm_num [simStep]
  have hstep4 : simStep 0.025 13000 "quota"
      (⟨30768.90625, 500, 2268.90625, 1500, 3,
       [⟨1, 30250, 750, 500, 750⟩,
        ⟨2, 30506.25, 756.25, 500, 1506.25⟩,
        ⟨3, 30768.90625, 762.65625, 500, 2268.90625⟩]⟩ : SimState) =
      ⟨31038.12890625, 500, 3038.12890625, 2000, 4,
       [⟨1, 30250, 750, 500, 750⟩,
        ⟨2, 30506.25, 756.25, 500, 1506.25⟩,
        ⟨3, 30768.90625, 762.65625, 500, 2268.90625⟩,
        ⟨4, 31038.12890625, 769.22265625, 500, 3038.12890625⟩]⟩ := by
    norm_num [simStep]
  have hstep5 : simStep 0.025 13000 "quota"
      (⟨31038.12890625, 500, 3038.12890625, 2000, 4,
       [⟨1, 30250, 750, 500, 750⟩,
        ⟨2, 30506.25, 756.25, 500, 1506.25⟩,
        ⟨3, 30768.90625, 762.65625, 500, 2268.90625⟩,
        ⟨4, 31038.12890625, 769.22265625, 500, 3038.12890625⟩]⟩ : SimState) =
      ⟨31314.08212890625, 500, 3814.08212890625, 2500, 5,
       [⟨1, 30250, 750, 500, 750⟩,
        ⟨2, 30506.25, 756.25, 500, 1506.25⟩,
        ⟨3, 30768.90625, 762.65625, 500, 2268.90625⟩,
        ⟨4, 31038.12890625, 769.22265625, 500, 3038.12890625⟩,
        ⟨5, 31314.08212890625, 775.95322265625, 500, 3814.08212890625⟩]⟩ := by
    norm_num [simStep]
  have hstep6 : simStep 0.025 13000 "quota"
      (⟨31314.08212890625, 500, 3814.08212890625, 2500, 5,
       [⟨1, 30250, 750, 500, 750⟩,
        ⟨2, 30506.25, 756.25, 500, 1506.25⟩,
        ⟨3, 30768.90625, 762.65625, 500, 2268.90625⟩,
        ⟨4, 31038.12890625, 769.22265625, 500, 3038.12890625⟩,
        ⟨5, 31314.08212890625, 775.95322265625, 500, 3814.08212890625⟩]⟩ : SimState) =
      ⟨31596.93418212890625, 500, 4596.93418212890625, 3000, 6,
       [⟨1, 30250, 750, 500, 750⟩,
        ⟨2, 30506.25, 756.25, 500, 1506.25⟩,
        ⟨3, 30768.90625, 762.65625, 500, 2268.90625⟩,
        ⟨4, 31038.12890625, 769.22265625, 500, 3038.12890625⟩,
        ⟨5, 31314.08212890625, 775.95322265625, 500, 3814.08212890625⟩,
        ⟨6, 31596.93418212890625, 782.85205322265625, 500, 4596.93418212890625⟩]⟩ := by
    norm_num [simStep]
  have hstep7 : simStep 0.025 13000 "quota"
      (⟨31596.93418212890625, 500, 4596.93418212890625, 3000, 6,
       [⟨1, 30250, 750, 500, 750⟩,
        ⟨2, 30506.25, 756.25, 500, 1506.25⟩,
        ⟨3, 30768.90625, 762.65625, 500, 2268.90625⟩,
        ⟨4, 31038.12890625, 769.22265625, 500, 3038.12890625⟩,
        ⟨5, 31314.08212890625, 775.95322265625, 500, 3814.08212890625⟩,
        ⟨6, 31596.93418212890625, 782.85205322265625, 500, 4596.93418212890625⟩]⟩ : SimState) =
      ⟨31886.85753668212890625, 500, 5386.85753668212890625, 3500, 7,
       [⟨1, 30250, 750, 500, 750⟩,
        ⟨2, 30506.25, 756.25, 500, 1506.25⟩,
        ⟨3, 30768.90625, 762.65625, 500, 2268.90625⟩,
        ⟨4, 31038.12890625, 769.22265625, 500, 3038.12890625⟩,
        ⟨5, 31314.08212890625, 775.95322265625, 500, 3814.08212890625⟩,
        ⟨6, 31596.93418212890625, 782.85205322265625, 500, 4596.93418212890625⟩,
        ⟨7, 31886.85753668212890625, 789.92335455322265625, 500, 5386.85753668212890625⟩]⟩ := by
    norm_num [simStep]
  have hstep8 : simStep 0.025 13000 "quota"
      (⟨31886.85753668212890625, 500, 5386.85753668212890625, 3500, 7,
       [⟨1, 30250, 750, 500, 750⟩,
        ⟨2, 30506.25, 756.25, 500, 1506.25⟩,
        ⟨3, 30768.90625, 762.65625, 500, 2268.90625⟩,
        ⟨4, 31038.12890625, 769.22265625, 500, 3038.12890625⟩,
        ⟨5, 31314.08212890625, 775.95322265625, 500, 3814.08212890625⟩,
        ⟨6, 31596.93418212890625, 782.85205322265625, 500, 4596.93418212890625⟩,
        ⟨7, 31886.85753668212890625, 789.92335455322265625, 500, 5386.85753668212890625⟩]⟩ : SimState) =
      ⟨32184.02897509918212890625, 500, 6184.02897509918212890625, 4000, 8,
       [⟨1, 30250, 750, 500, 750⟩,
        ⟨2, 30506.25, 756.25, 500, 1506.25⟩,
        ⟨3, 30768.90625, 762.65625, 500, 2268.90625⟩,
        ⟨4, 31038.12890625, 769.22265625, 500, 3038.12890625⟩,
        ⟨5, 31314.08212890625, 775.95322265625, 500, 3814.08212890625⟩,
        ⟨6, 31596.93418212890625, 782.85205322265625, 500, 4596.93418212890625⟩,
        ⟨7, 31886.85753668212890625, 789.92335455322265625, 500, 5386.85753668212890625⟩,
        ⟨8, 32184.02897509918212890625, 797.17143841705322265625, 500, 6184.02897509918212890625⟩]⟩ := by
    norm_num [simStep]
  have hstep9 : simStep 0.025 13000 "quota"
      (⟨32184.02897509918212890625, 500, 6184.02897509918212890625, 4000, 8,
       [⟨1, 30250, 750, 500, 750⟩,
        ⟨2, 30506.25, 756.25, 500, 1506.25⟩,
        ⟨3, 30768.90625, 762.65625, 500, 2268.90625⟩,
        ⟨4, 31038.12890625, 769.22265625, 500, 3038.12890625⟩,
        ⟨5, 31314.08212890625, 775.95322265625, 500, 3814.08212890625⟩,
        ⟨6, 31596.93418212890625, 782.85205322265625, 500, 4596.93418212890625⟩,
        ⟨7, 31886.85753668212890625, 789.92335455322265625, 500, 5386.85753668212890625⟩,
        ⟨8, 32184.02897509918212890625, 797.17143841705322265625, 500, 6184.02897509918212890625⟩]⟩ : SimState) =
      ⟨32488.62969947666168212890625, 500, 6988.62969947666168212890625, 4500, 9,
       [⟨1, 30250, 750, 500, 750⟩,
        ⟨2, 30506.25, 756.25, 500, 1506.25⟩,
        ⟨3, 30768.90625, 762.65625, 500, 2268.90625⟩,
        ⟨4, 31038.12890625, 769.22265625, 500, 3038.12890625⟩,
        ⟨5, 31314.08212890625, 775.95322265625, 500, 3814.08212890625⟩,
        ⟨6, 31596.93418212890625, 782.85205322265625, 500, 4596.93418212890625⟩,
        ⟨7, 31886.85753668212890625, 789.92335455322265625, 500, 5386.85753668212890625⟩,
        ⟨8, 32184.02897509918212890625, 797.17143841705322265625, 500, 6184.02897509918212890625⟩,
        ⟨9, 32488.62969947666168212890625, 804.60072437747955322265625, 500, 6988.62969947666168212890625⟩]⟩ := by
    norm_num [simStep]
  have hstep10 : simStep 0.025 13000 "quota"
      (⟨32488.62969947666168212890625, 500, 6988.62969947666168212890625, 4500, 9,
       [⟨1, 30250, 750, 500, 750⟩,
        ⟨2, 30506.25, 756.25, 500, 1506.25⟩,
        ⟨3, 30768.90625, 762.65625, 500, 2268.90625⟩,
        ⟨4, 31038.12890625, 769.22265625, 500, 3038.12890625⟩,
        ⟨5, 31314.08212890625, 775.95322265625, 500, 3814.08212890625⟩,
        ⟨6, 31596.93418212890625, 782.85205322265625, 500, 4596.93418212890625⟩,
        ⟨7, 31886.85753668212890625, 789.92335455322265625, 500, 5386.85753668212890625⟩,
        ⟨8, 32184.02897509918212890625, 797.17143841705322265625, 500, 6184.02897509918212890625⟩,
        ⟨9, 32488.62969947666168212890625, 804.60072437747955322265625, 500, 6988.62969947666168212890625⟩]⟩ : SimState) =
      ⟨32800.84544196357822418212890625, 500, 7800.84544196357822418212890625, 5000, 10,
       [⟨1, 30250, 750, 500, 750⟩,
        ⟨2, 30506.25, 756.25, 500, 1506.25⟩,
        ⟨3, 30768.90625, 762.65625, 500, 2268.90625⟩,
        ⟨4, 31038.12890625, 769.22265625, 500, 3038.12890625⟩,
        ⟨5, 31314.08212890625, 775.95322265625, 500, 3814.08212890625⟩,
        ⟨6, 31596.93418212890625, 782.85205322265625, 500, 4596.93418212890625⟩,
        ⟨7, 31886.85753668212890625, 789.92335455322265625, 500, 5386.85753668212890625⟩,
        ⟨8, 32184.02897509918212890625, 797.17143841705322265625, 500, 6184.02897509918212890625⟩,
        ⟨9, 32488.62969947666168212890625, 804.60072437747955322265625, 500, 6988.62969947666168212890625⟩,
        ⟨10, 32800.84544196357822418212890625, 812.21574248691654205322265625, 500, 7800.84544196357822418212890625⟩]⟩ := by
    norm_num [simStep]
  have hstep11 : simStep 0.025 13000 "quota"
      (⟨32800.84544196357822418212890625, 500, 7800.84544196357822418212890625, 5000, 10,
       [⟨1, 30250, 750, 500, 750⟩,
        ⟨2, 30506.25, 756.25, 500, 1506.25⟩,
        ⟨3, 30768.90625, 762.65625, 500, 2268.90625⟩,
        ⟨4, 31038.12890625, 769.22265625, 500, 3038.12890625⟩,
        ⟨5, 31314.08212890625, 775.95322265625, 500, 3814.08212890625⟩,
        ⟨6, 31596.93418212890625, 782.85205322265625, 500, 4596.93418212890625⟩,
        ⟨7, 31886.85753668212890625, 789.92335455322265625, 500, 5386.85753668212890625⟩,
        ⟨8, 32184.02897509918212890625, 797.17143841705322265625, 500, 6184.02897509918212890625⟩,
        ⟨9, 32488.62969947666168212890625, 804.60072437747955322265625, 500, 6988.62969947666168212890625⟩,
        ⟨10, 32800.84544196357822418212890625, 812.21574248691654205322265625, 500, 7800.84544196357822418212890625⟩]⟩ : SimState) =
      ⟨33120.86657801266767978668212890625, 500, 8620.86657801266767978668212890625, 5500, 11,
       [⟨1, 30250, 750, 500, 750⟩,
        ⟨2, 30506.25, 756.25, 500, 1506.25⟩,
        ⟨3, 30768.90625, 762.65625, 500, 2268.90625⟩,
        ⟨4, 31038.12890625, 769.22265625, 500, 3038.12890625⟩,
        ⟨5, 31314.08212890625, 775.95322265625, 500, 3814.08212890625⟩,
        ⟨6, 31596.93418212890625, 782.85205322265625, 500, 4596.93418212890625⟩,
        ⟨7, 31886.85753668212890625, 789.92335455322265625, 500, 5386.85753668212890625⟩,
        ⟨8, 32184.02897509918212890625, 797.17143841705322265625, 500, 6184.02897509918212890625⟩,
        ⟨9, 32488.62969947666168212890625, 804.60072437747955322265625, 500, 6988.62969947666168212890625⟩,
        ⟨10, 32800.84544196357822418212890625, 812.21574248691654205322265625, 500, 7800.84544196357822418212890625⟩,
        ⟨11, 33120.86657801266767978668212890625, 820.02113604908945560455322265625, 500, 8620.86657801266767978668212890625⟩]⟩ := by
    norm_num [simStep]
  have hev : simLoop 0.025 13000 "quota" MAX_MONTHS
      (⟨30000, 500, 0, 0, 0, []⟩ : SimState) =
      simLoop 0.025 13000 "quota" 1189
      (⟨33120.86657801266767978668212890625, 500, 8620.86657801266767978668212890625, 5500, 11,
       [⟨1, 30250, 750, 500, 750⟩,
        ⟨2, 30506.25, 756.25, 500, 1506.25⟩,
        ⟨3, 30768.90625, 762.65625, 500, 2268.90625⟩,
        ⟨4, 31038.12890625, 769.22265625, 500, 3038.12890625⟩,
        ⟨5, 31314.08212890625, 775.95322265625, 500, 3814.08212890625⟩,
        ⟨6, 31596.93418212890625, 782.85205322265625, 500, 4596.93418212890625⟩,
        ⟨7, 31886.85753668212890625, 789.92335455322265625, 500, 5386.85753668212890625⟩,
        ⟨8, 32184.02897509918212890625, 797.17143841705322265625, 500, 6184.02897509918212890625⟩,
        ⟨9, 32488.62969947666168212890625, 804.60072437747955322265625, 500, 6988.62969947666168212890625⟩,
        ⟨10, 32800.84544196357822418212890625, 812.21574248691654205322265625, 500, 7800.84544196357822418212890625⟩,
        ⟨11, 33120.86657801266767978668212890625, 820.02113604908945560455322265625, 500, 8620.86657801266767978668212890625⟩]⟩ : SimState) := by
    rw [show MAX_MONTHS = 1199 + 1 from rfl,
      simLoop_step_eval 0.025 13000 "quota" 1199 _ _
        ⟨by norm_num, by norm_num [MAX_MONTHS]⟩ hstep1]
    rw [show (1199:ℕ) = 1198 + 1 from rfl,
      simLoop_step_eval 0.025 13000 "quota" 1198 _ _
        ⟨by norm_num, by norm_num [MAX_MONTHS]⟩ hstep2]
    rw [show (1198:ℕ) = 1197 + 1 from rfl,
      simLoop_step_eval 0.025 13000 "quota" 1197 _ _
        ⟨by norm_num, by norm_num [MAX_MONTHS]⟩ hstep3]
    rw [show (1197:ℕ) = 1196 + 1 from rfl,
      simLoop_step_eval 0.025 13000 "quota" 1196 _ _
        ⟨by norm_num, by norm_num [MAX_MONTHS]⟩ hstep4]
    rw [show (1196:ℕ) = 1195 + 1 from rfl,
      simLoop_step_eval 0.025 13000 "quota" 1195 _ _
        ⟨by norm_num, by norm_num [MAX_MONTHS]⟩ hstep5]
    rw [show (1195:ℕ) = 1194 + 1 from rfl,
      simLoop_step_eval 0.025 13000 "quota" 1194 _ _
        ⟨by norm_num, by norm_num [MAX_MONTHS]⟩ hstep6]
    rw [show (1194:ℕ) = 1193 + 1 from rfl,
      simLoop_step_eval 0.025 13000 "quota" 1193 _ _
        ⟨by norm_num, by norm_num [MAX_MONTHS]⟩ hstep7]
    rw [show (1193:ℕ) = 1192 + 1 from rfl,
      simLoop_step_eval 0.025 13000 "quota" 1192 _ _
        ⟨by norm_num, by norm_num [MAX_MONTHS]⟩ hstep8]
    rw [show (1192:ℕ) = 1191 + 1 from rfl,
      simLoop_step_eval 0.025 13000 "quota" 1191 _ _
        ⟨by norm_num, by norm_num [MAX_MONTHS]⟩ hstep9]
    rw [show (1191:ℕ) = 1190 + 1 from rfl,
      simLoop_step_eval 0.025 13000 "quota" 1190 _ _
        ⟨by norm_num, by norm_num [MAX_MONTHS]⟩ hstep10]
    rw [show (1190:ℕ) = 1189 + 1 from rfl,
      simLoop_step_eval 0.025 13000 "quota" 1189 _ _
        ⟨by norm_num, by norm_num [MAX_MONTHS]⟩ hstep11]
  refine ⟨?_, by norm_num⟩
  unfold finalState
  have hrate : getMonthlyRate
      ((⟨30000, 30, 500, 13000, "quota"⟩ : SimulationParameters).annualRate) = 0.025 := by
    norm_num [getMonthlyRate]
  rw [hrate]
  exact hev

end Mortgage

